import Mathlib

/-!
# Verification of the finance-track form and route guard

Shallow embedding of the two source components of the repository:

* `src/src/components/InvestmentForm.tsx` — the investment entry form.
  Its submit handler `handleSubmit` validates the three text fields
  (`date`, `amount`, `ethPrice`), parses the two numeric ones with
  JavaScript `parseFloat`, checks positivity, flips signs for
  withdrawals and hands the constructed `Investment` record to the
  `onAddInvestment` callback.  Its `fetchEthPrice` helper wraps the
  external price service in `try/catch/finally`.
* `src/src/components/auth/PrivateRoute.tsx` — the route guard, a pure
  function of the ambient auth state `{ user, loading }`.

Numbers are modelled by `ℚ`.  JavaScript number strings are parsed by a
model of `parseFloat` covering the decimal-literal grammar (optional
sign, digits, optional fraction, optional exponent, longest valid
prefix, leading whitespace skipped); the `Infinity` literal and
non-ASCII whitespace beyond NBSP are not modelled, and the final
rounding to binary floating point is dropped — both are irrelevant to
the properties below, which concern signs, exact quotients and the
error paths.
-/

/-- Entry type of an investment: the `'deposit' | 'withdrawal'` union
in the source. -/
inductive EntryType where
  | deposit
  | withdrawal
deriving DecidableEq

/-- The `Investment` record handed to `onAddInvestment`
(`src/types/investment`, as constructed in `handleSubmit`). -/
structure Investment where
  id : String
  date : String
  amount : ℚ
  ethPrice : ℚ
  ethAmount : ℚ
  type : EntryType
deriving DecidableEq

/-- The text-field state of the form: `date`, `amount`, `ethPrice`
(raw strings, as held by `useState`) and the selected `type`. -/
structure FormState where
  date : String
  amount : String
  ethPrice : String
  type : EntryType
deriving DecidableEq

/-- A toast notification (the `sonner` calls `toast.error` /
`toast.success`). -/
inductive Toast where
  | error (msg : String)
  | success (msg : String)
deriving DecidableEq

/-- Everything `handleSubmit` does, as a value: the single toast it
shows, the optional `onAddInvestment` callback argument, the form
state after the handler returns, and whether `fetchEthPrice()` was
re-triggered. -/
structure SubmitOutcome where
  toast : Toast
  callback : Option Investment
  state : FormState
  refetch : Bool
deriving DecidableEq

/-- JavaScript `StrWhiteSpaceChar` (the characters `parseFloat` skips
at the front of its input): space, tab, line feed, vertical tab, form
feed, carriage return, NBSP. -/
def isJsWhitespace (c : Char) : Bool :=
  c = ' ' || c = '\t' || c = '\n' || c = '\x0b' || c = '\x0c' || c = '\r' || c = ' '

/-- Numeric value of a decimal digit character. -/
def digitVal (c : Char) : ℕ := c.toNat - '0'.toNat

/-- Value of a string of decimal digits, most significant first. -/
def digitsToNat (ds : List Char) : ℕ := ds.foldl (fun n c => 10 * n + digitVal c) 0

/-- Model of JavaScript `parseFloat`: skip leading whitespace, read an
optional sign, integer digits, an optional `.` with fraction digits,
and an optional exponent part (only when it is well formed — longest
valid prefix semantics); trailing garbage is ignored.  Returns `none`
exactly when the result would be `NaN`, i.e. when no digit is read
before the exponent. -/
def parseFloat (s : String) : Option ℚ :=
  let cs := s.data.dropWhile isJsWhitespace
  let sgn : ℚ := if cs.head? = some '-' then -1 else 1
  let cs1 := if cs.head? = some '-' ∨ cs.head? = some '+' then cs.tail else cs
  let intDs := cs1.takeWhile Char.isDigit
  let cs2 := cs1.dropWhile Char.isDigit
  let fracDs := if cs2.head? = some '.' then cs2.tail.takeWhile Char.isDigit else []
  let cs3 := if cs2.head? = some '.' then cs2.tail.dropWhile Char.isDigit else cs2
  if intDs = [] ∧ fracDs = [] then
    none
  else
    let mant : ℚ := (digitsToNat intDs : ℚ) + (digitsToNat fracDs : ℚ) / (10 : ℚ) ^ fracDs.length
    let rest := if cs3.head? = some 'e' ∨ cs3.head? = some 'E' then cs3.tail else []
    let esgn : ℤ := if rest.head? = some '-' then -1 else 1
    let rest1 := if rest.head? = some '-' ∨ rest.head? = some '+' then rest.tail else rest
    let eDs := rest1.takeWhile Char.isDigit
    let e : ℤ := if (cs3.head? = some 'e' ∨ cs3.head? = some 'E') ∧ eDs ≠ [] then
        esgn * (digitsToNat eDs : ℤ)
      else 0
    some (sgn * mant * (10 : ℚ) ^ e)

/-- The submit handler `handleSubmit` of `InvestmentForm`, as a
function of the editing prop, the fresh identifier that
`Math.random().toString(36).substring(2, 9)` would produce, and the
current form state.  JavaScript truthiness: `!date` is true exactly
for the empty string, and `editingInvestment?.id || freshId` falls
back to `freshId` when the id is absent **or the empty string**. -/
def handleSubmit (editingInvestment : Option Investment) (freshId : String)
    (s : FormState) : SubmitOutcome :=
  if s.date = "" ∨ s.amount = "" ∨ s.ethPrice = "" then
    { toast := .error "Please complete all fields", callback := none, state := s, refetch := false }
  else
    match parseFloat s.amount, parseFloat s.ethPrice with
    | some amountNumber, some ethPriceNumber =>
      if amountNumber ≤ 0 ∨ ethPriceNumber ≤ 0 then
        { toast := .error "Values must be greater than zero", callback := none, state := s,
          refetch := false }
      else
        let finalAmount := amountNumber
        let finalEthAmount := amountNumber / ethPriceNumber
        let finalAmount := if s.type = .withdrawal then -finalAmount else finalAmount
        let finalEthAmount := if s.type = .withdrawal then -finalEthAmount else finalEthAmount
        let investmentData : Investment :=
          { id := match editingInvestment with
              | some e => if e.id = "" then freshId else e.id
              | none => freshId
            date := s.date
            amount := finalAmount
            ethPrice := ethPriceNumber
            ethAmount := finalEthAmount
            type := s.type }
        { toast := .success (match editingInvestment with
            | some _ => "Investment updated"
            | none => "Investment added")
          callback := some investmentData
          state := match editingInvestment with
            | some _ => s
            | none => { s with amount := "" }
          refetch := match editingInvestment with
            | some _ => false
            | none => true }
    | _, _ =>
      { toast := .error "Please enter valid numeric values", callback := none, state := s,
        refetch := false }

/-- An authenticated user, as far as the guard is concerned: an opaque
value; the guard only tests it against `null`. -/
structure User where
  uid : String
deriving DecidableEq

/-- The `{ user, loading }` value read from `useAuth()`. -/
structure AuthState where
  user : Option User
  loading : Bool
deriving DecidableEq

/-- What `PrivateRoute` returns: the loading placeholder
(`<div>Loading...</div>`), a client-side redirect (`<Navigate to=.../>`),
or the wrapped children. -/
inductive RenderResult (α : Type) where
  | loadingPlaceholder
  | navigate (dest : String)
  | content (children : α)
deriving DecidableEq

/-- The `PrivateRoute` component of `PrivateRoute.tsx`, as a pure
function of the ambient auth state and the wrapped children. -/
def PrivateRoute {α : Type} (auth : AuthState) (children : α) : RenderResult α :=
  if auth.loading then
    .loadingPlaceholder
  else
    match auth.user with
    | some _ => .content children
    | none => .navigate "/login"

/-- Result of awaiting `getEthPrice()`: a price, or a thrown fetch
error. -/
inductive FetchResult where
  | ok (price : ℚ)
  | failed
deriving DecidableEq

/-- Observable outcome of one `fetchEthPrice()` call: the value of the
`ethPrice` field afterwards, the final `isLoading` flag, how many error
toasts were shown, and whether an exception escaped the handler. -/
structure FetchOutcome where
  ethPrice : String
  isLoading : Bool
  errorToasts : ℕ
  raised : Bool
deriving DecidableEq

/-- The `fetchEthPrice` helper: `setIsLoading(true)`, then
`try { setEthPrice((await getEthPrice()).toString()) }
catch { console.error(...); toast.error(...) } finally
{ setIsLoading(false) }`.  `prevEthPrice` is the field's value before
the call; `toastThrows` says whether the `toast.error` call in the
catch block itself throws — the `finally` block clears `isLoading`
either way, and only in that case does an exception escape. -/
def fetchEthPrice (prevEthPrice : String) (result : FetchResult)
    (toastThrows : Bool) : FetchOutcome :=
  match result with
  | .ok price =>
    { ethPrice := toString price, isLoading := false, errorToasts := 0, raised := false }
  | .failed =>
    { ethPrice := prevEthPrice, isLoading := false, errorToasts := 1, raised := toastThrows }

theorem parseFloat_empty : parseFloat "" = none := by
  simp +decide [parseFloat]

theorem parseFloat_ne_empty {s : String} {a : ℚ} (h : parseFloat s = some a) :
    s ≠ "" := by
  intro hs
  rw [hs, parseFloat_empty] at h
  exact Option.noConfusion h

theorem parseFloat_of_whitespace {s : String} (h : s.data.all isJsWhitespace = true) :
    parseFloat s = none := by
  have hnil : s.data.dropWhile isJsWhitespace = [] := by
    rw [List.dropWhile_eq_nil_iff]
    intro x hx
    exact List.all_eq_true.mp h x hx
  simp [parseFloat, hnil]

theorem handleSubmit_nonnumeric (editing : Option Investment) (freshId : String)
    (s : FormState) (hd : s.date ≠ "") (ha : s.amount ≠ "") (hp : s.ethPrice ≠ "")
    (h : parseFloat s.amount = none ∨ parseFloat s.ethPrice = none) :
    handleSubmit editing freshId s =
      { toast := .error "Please enter valid numeric values", callback := none, state := s,
        refetch := false } := by
  unfold handleSubmit
  rw [if_neg (by simp [hd, ha, hp])]
  split
  · next a p hA hP =>
    rcases h with h | h
    · rw [h] at hA; exact Option.noConfusion hA
    · rw [h] at hP; exact Option.noConfusion hP
  · rfl

theorem handleSubmit_nonpositive (editing : Option Investment) (freshId : String)
    (s : FormState) (a p : ℚ) (hd : s.date ≠ "")
    (hA : parseFloat s.amount = some a) (hP : parseFloat s.ethPrice = some p)
    (h : a ≤ 0 ∨ p ≤ 0) :
    handleSubmit editing freshId s =
      { toast := .error "Values must be greater than zero", callback := none, state := s,
        refetch := false } := by
  have ha' := parseFloat_ne_empty hA
  have hp' := parseFloat_ne_empty hP
  unfold handleSubmit
  rw [if_neg (by simp [hd, ha', hp'])]
  simp only [hA, hP]
  rw [if_pos h]

theorem handleSubmit_pos (editing : Option Investment) (freshId : String) (s : FormState)
    (a p : ℚ) (hd : s.date ≠ "") (hA : parseFloat s.amount = some a)
    (hP : parseFloat s.ethPrice = some p) (ha : 0 < a) (hp : 0 < p) :
    handleSubmit editing freshId s =
      { toast := .success (match editing with
          | some _ => "Investment updated"
          | none => "Investment added")
        callback := some
          { id := match editing with
              | some e => if e.id = "" then freshId else e.id
              | none => freshId
            date := s.date
            amount := if s.type = EntryType.withdrawal then -a else a
            ethPrice := p
            ethAmount := if s.type = EntryType.withdrawal then -(a / p) else a / p
            type := s.type }
        state := match editing with
          | some _ => s
          | none => { s with amount := "" }
        refetch := match editing with
          | some _ => false
          | none => true } := by
  have ha' := parseFloat_ne_empty hA
  have hp' := parseFloat_ne_empty hP
  unfold handleSubmit
  rw [if_neg (by simp [hd, ha', hp'])]
  simp only [hA, hP]
  rw [if_neg (by push_neg; exact ⟨ha, hp⟩)]

/-- C1: for every submit with non-empty date and with amount and ethPrice
parsing to numbers `a > 0` and `p > 0`, the record passed to
`onAddInvestment` has `ethPrice = p`; for `type = deposit` it has
`amount = a` and `ethAmount = a / p`, both positive, and for
`type = withdrawal` it has `amount = -a` and `ethAmount = -(a / p)`,
both negative. -/
theorem C1_submit_transformation (editing : Option Investment) (freshId : String)
    (s : FormState) (a p : ℚ) (hd : s.date ≠ "")
    (hA : parseFloat s.amount = some a) (ha : 0 < a)
    (hP : parseFloat s.ethPrice = some p) (hp : 0 < p) :
    ∃ inv : Investment, (handleSubmit editing freshId s).callback = some inv ∧
      inv.ethPrice = p ∧
      (s.type = EntryType.deposit →
        inv.amount = a ∧ inv.ethAmount = a / p ∧ 0 < inv.amount ∧ 0 < inv.ethAmount) ∧
      (s.type = EntryType.withdrawal →
        inv.amount = -a ∧ inv.ethAmount = -(a / p) ∧ inv.amount < 0 ∧ inv.ethAmount < 0) := by
  rw [handleSubmit_pos editing freshId s a p hd hA hP ha hp]
  refine ⟨_, rfl, rfl, ?_, ?_⟩
  · intro ht
    simp +decide [ht, ha, div_pos ha hp]
  · intro ht
    simp +decide [ht, neg_lt_zero, ha, div_pos ha hp]

/-- C1 witness: a concrete deposit submit with amount 100 and price 50. -/
theorem C1_witness :
    ∃ inv : Investment,
      (handleSubmit none "q1w2e3r"
        { date := "2024-01-01", amount := "100", ethPrice := "50",
          type := EntryType.deposit }).callback = some inv ∧
      inv.ethPrice = 50 ∧
      (EntryType.deposit = EntryType.deposit →
        inv.amount = 100 ∧ inv.ethAmount = 100 / 50 ∧ 0 < inv.amount ∧ 0 < inv.ethAmount) ∧
      (EntryType.deposit = EntryType.withdrawal →
        inv.amount = -100 ∧ inv.ethAmount = -(100 / 50) ∧ inv.amount < 0 ∧ inv.ethAmount < 0) :=
  C1_submit_transformation none "q1w2e3r" _ 100 50 (by decide)
    (by simp +decide [parseFloat, digitsToNat, digitVal]) (by norm_num)
    (by simp +decide [parseFloat, digitsToNat, digitVal]) (by norm_num)

/-- C2: every record that `handleSubmit` passes to `onAddInvestment`
satisfies `ethAmount = amount / ethPrice` exactly, sign included, and
the sign of both `amount` and `ethAmount` is negative for a withdrawal
and positive for a deposit. -/
theorem C2_ethAmount_invariant (editing : Option Investment) (freshId : String)
    (s : FormState) (inv : Investment)
    (h : (handleSubmit editing freshId s).callback = some inv) :
    inv.ethAmount = inv.amount / inv.ethPrice ∧
    (inv.type = EntryType.withdrawal → inv.amount < 0 ∧ inv.ethAmount < 0) ∧
    (inv.type = EntryType.deposit → 0 < inv.amount ∧ 0 < inv.ethAmount) := by
  unfold handleSubmit at h
  split at h
  · exact absurd h (by simp)
  · split at h
    · next a p hA hP =>
      split at h
      · exact absurd h (by simp)
      · next hcond =>
        push_neg at hcond
        obtain ⟨ha, hp⟩ := hcond
        simp only [Option.some.injEq] at h
        subst h
        cases ht : s.type
        · simp +decide [ht, ha, div_pos ha hp]
        · simp +decide [ht, neg_lt_zero, neg_div, ha, div_pos ha hp]
    · exact absurd h (by simp)

/-- C2 witness: the invariant at a concrete successful submit. -/
theorem C2_witness :
    Investment.ethAmount
        { id := "q1w2e3r", date := "2024-01-01", amount := 100, ethPrice := 50,
          ethAmount := 2, type := EntryType.deposit } =
      Investment.amount
          { id := "q1w2e3r", date := "2024-01-01", amount := 100, ethPrice := 50,
            ethAmount := 2, type := EntryType.deposit } /
        Investment.ethPrice
          { id := "q1w2e3r", date := "2024-01-01", amount := 100, ethPrice := 50,
            ethAmount := 2, type := EntryType.deposit } ∧
    (EntryType.deposit = EntryType.withdrawal → (100 : ℚ) < 0 ∧ (2 : ℚ) < 0) ∧
    (EntryType.deposit = EntryType.deposit → (0 : ℚ) < 100 ∧ (0 : ℚ) < 2) :=
  C2_ethAmount_invariant none "q1w2e3r"
    { date := "2024-01-01", amount := "100", ethPrice := "50", type := EntryType.deposit }
    _ (by
      rw [handleSubmit_pos none "q1w2e3r" _ 100 50 (by decide)
        (by simp +decide [parseFloat, digitsToNat, digitVal])
        (by simp +decide [parseFloat, digitsToNat, digitVal]) (by norm_num) (by norm_num)]
      simp +decide
      norm_num)

/-- C3: submitting with any of date, amount, ethPrice empty shows the
toast "Please complete all fields", does not invoke `onAddInvestment`,
leaves the form state untouched and triggers no fetch. -/
theorem C3_required_fields (editing : Option Investment) (freshId : String)
    (s : FormState) (h : s.date = "" ∨ s.amount = "" ∨ s.ethPrice = "") :
    handleSubmit editing freshId s =
      { toast := .error "Please complete all fields", callback := none, state := s,
        refetch := false } := by
  unfold handleSubmit
  rw [if_pos h]

/-- C3 witness: a submit with an empty date field. -/
theorem C3_witness :
    handleSubmit none "q1w2e3r"
        { date := "", amount := "100", ethPrice := "50", type := EntryType.deposit } =
      { toast := .error "Please complete all fields", callback := none,
        state := { date := "", amount := "100", ethPrice := "50", type := EntryType.deposit },
        refetch := false } :=
  C3_required_fields none "q1w2e3r" _ (Or.inl rfl)

/-- C4: with all three fields non-empty, if amount or ethPrice fails to
parse as a number the toast is "Please enter valid numeric values" and
`onAddInvestment` is not invoked (form state untouched, no fetch). -/
theorem C4_nonnumeric_fields (editing : Option Investment) (freshId : String)
    (s : FormState) (hd : s.date ≠ "") (ha : s.amount ≠ "") (hp : s.ethPrice ≠ "")
    (h : parseFloat s.amount = none ∨ parseFloat s.ethPrice = none) :
    handleSubmit editing freshId s =
      { toast := .error "Please enter valid numeric values", callback := none, state := s,
        refetch := false } :=
  handleSubmit_nonnumeric editing freshId s hd ha hp h

/-- C4 witness: a submit with `amount = "abc"`. -/
theorem C4_witness :
    handleSubmit none "q1w2e3r"
        { date := "2024-01-01", amount := "abc", ethPrice := "50", type := EntryType.deposit } =
      { toast := .error "Please enter valid numeric values", callback := none,
        state := { date := "2024-01-01", amount := "abc", ethPrice := "50",
                   type := EntryType.deposit },
        refetch := false } :=
  C4_nonnumeric_fields none "q1w2e3r" _ (by decide) (by decide) (by decide)
    (Or.inl (by simp +decide [parseFloat]))

/-- C5: with all fields non-empty and both values parsing, if either
parsed value is not strictly positive the toast is "Values must be
greater than zero" and `onAddInvestment` is not invoked. -/
theorem C5_nonpositive_values (editing : Option Investment) (freshId : String)
    (s : FormState) (a p : ℚ) (hd : s.date ≠ "")
    (hA : parseFloat s.amount = some a) (hP : parseFloat s.ethPrice = some p)
    (h : a ≤ 0 ∨ p ≤ 0) :
    handleSubmit editing freshId s =
      { toast := .error "Values must be greater than zero", callback := none, state := s,
        refetch := false } :=
  handleSubmit_nonpositive editing freshId s a p hd hA hP h

/-- C5 witness: a submit with `amount = "-5"`. -/
theorem C5_witness :
    handleSubmit none "q1w2e3r"
        { date := "2024-01-01", amount := "-5", ethPrice := "50", type := EntryType.deposit } =
      { toast := .error "Values must be greater than zero", callback := none,
        state := { date := "2024-01-01", amount := "-5", ethPrice := "50",
                   type := EntryType.deposit },
        refetch := false } :=
  C5_nonpositive_values none "q1w2e3r" _ (-5) 50 (by decide)
    (by simp +decide [parseFloat, digitsToNat, digitVal])
    (by simp +decide [parseFloat, digitsToNat, digitVal])
    (Or.inl (by norm_num))

/-- C6 (amended): for every successful submit, if `editingInvestment`
is present and its stored id is non-empty the submitted record keeps
that id and the toast is "Investment updated"; if `editingInvestment`
is null the submitted record gets the freshly generated random id and
the toast is "Investment added".  (When the stored id is the empty
string — falsy in JavaScript — `editingInvestment?.id || ...` falls
through to the fresh id; see the counterexample.) -/
theorem C6_id_and_toast (freshId : String) (s : FormState) (a p : ℚ)
    (hd : s.date ≠ "") (hA : parseFloat s.amount = some a) (ha : 0 < a)
    (hP : parseFloat s.ethPrice = some p) (hp : 0 < p) :
    (∀ e : Investment, e.id ≠ "" →
      ∃ inv : Investment, (handleSubmit (some e) freshId s).callback = some inv ∧
        inv.id = e.id ∧
        (handleSubmit (some e) freshId s).toast = .success "Investment updated") ∧
    (∃ inv : Investment, (handleSubmit none freshId s).callback = some inv ∧
      inv.id = freshId ∧
      (handleSubmit none freshId s).toast = .success "Investment added") := by
  constructor
  · intro e he
    rw [handleSubmit_pos (some e) freshId s a p hd hA hP ha hp]
    exact ⟨_, rfl, by simp [he], rfl⟩
  · rw [handleSubmit_pos none freshId s a p hd hA hP ha hp]
    exact ⟨_, rfl, rfl, rfl⟩

/-- C6 counterexample: editing a record whose stored id is the empty
string is a successful submit, yet the submitted record's id is the
fresh random id `"q1w2e3r"`, not `editingInvestment.id = ""` — JavaScript
`editingInvestment?.id || Math.random()...` treats the empty string as
falsy. -/
theorem C6_counterexample :
    ((handleSubmit
        (some { id := "", date := "2024-01-01", amount := 1, ethPrice := 1, ethAmount := 1,
                type := EntryType.deposit })
        "q1w2e3r"
        { date := "2024-01-02", amount := "100", ethPrice := "50",
          type := EntryType.deposit }).callback.map Investment.id = some "q1w2e3r") ∧
    "q1w2e3r" ≠ "" := by
  constructor
  · rw [handleSubmit_pos _ "q1w2e3r" _ 100 50 (by decide)
      (by simp +decide [parseFloat, digitsToNat, digitVal])
      (by simp +decide [parseFloat, digitsToNat, digitVal]) (by norm_num) (by norm_num)]
    simp
  · decide

/-- C6 witness: the amended claim at a concrete edit (non-empty stored
id "old1234") and a concrete create. -/
theorem C6_witness :
    (∀ e : Investment, e.id ≠ "" →
      ∃ inv : Investment,
        (handleSubmit (some e) "q1w2e3r"
          { date := "2024-01-01", amount := "100", ethPrice := "50",
            type := EntryType.deposit }).callback = some inv ∧
        inv.id = e.id ∧
        (handleSubmit (some e) "q1w2e3r"
          { date := "2024-01-01", amount := "100", ethPrice := "50",
            type := EntryType.deposit }).toast = .success "Investment updated") ∧
    (∃ inv : Investment,
      (handleSubmit none "q1w2e3r"
        { date := "2024-01-01", amount := "100", ethPrice := "50",
          type := EntryType.deposit }).callback = some inv ∧
      inv.id = "q1w2e3r" ∧
      (handleSubmit none "q1w2e3r"
        { date := "2024-01-01", amount := "100", ethPrice := "50",
          type := EntryType.deposit }).toast = .success "Investment added") :=
  C6_id_and_toast "q1w2e3r" _ 100 50 (by decide)
    (by simp +decide [parseFloat, digitsToNat, digitVal]) (by norm_num)
    (by simp +decide [parseFloat, digitsToNat, digitVal]) (by norm_num)

/-- C7: PrivateRoute as a function of AuthState: when loading it renders
only the loading placeholder; when not loading without a user it yields
only the redirect to "/login"; when not loading with a user it renders
the children unchanged with no redirect. -/
theorem C7_access_guard (α : Type) (children : α) (u : User) (v : Option User) :
    PrivateRoute { user := v, loading := true } children = RenderResult.loadingPlaceholder ∧
    PrivateRoute { user := none, loading := false } children = RenderResult.navigate "/login" ∧
    PrivateRoute { user := some u, loading := false } children = RenderResult.content children :=
  ⟨rfl, rfl, rfl⟩

/-- C8: when the external price fetch fails, the ethPrice field keeps
its prior value and the error toast "Error getting ETH price. Enter it
manually." is shown exactly once; in every case — success or failure,
even when the toast call itself throws — isLoading ends false. -/
theorem C8_fetch_failure (prev : String) (t : Bool) :
    (fetchEthPrice prev .failed t).ethPrice = prev ∧
    (fetchEthPrice prev .failed t).errorToasts = 1 ∧
    ∀ r : FetchResult, (fetchEthPrice prev r t).isLoading = false := by
  refine ⟨rfl, rfl, fun r => ?_⟩
  cases r <;> rfl

/-- C9: after a successful create submit the amount field is cleared
(other fields kept) and a new price fetch is triggered; after a
successful edit submit the form state is unchanged and no fetch is
triggered. -/
theorem C9_post_submit (freshId : String) (s : FormState) (a p : ℚ)
    (hd : s.date ≠ "") (hA : parseFloat s.amount = some a) (ha : 0 < a)
    (hP : parseFloat s.ethPrice = some p) (hp : 0 < p) :
    ((handleSubmit none freshId s).state = { s with amount := "" } ∧
      (handleSubmit none freshId s).refetch = true) ∧
    ∀ e : Investment, (handleSubmit (some e) freshId s).state = s ∧
      (handleSubmit (some e) freshId s).refetch = false := by
  refine ⟨⟨?_, ?_⟩, fun e => ⟨?_, ?_⟩⟩ <;>
    rw [handleSubmit_pos _ freshId s a p hd hA hP ha hp]

/-- C9 witness: concrete create and edit submits. -/
theorem C9_witness :
    ((handleSubmit none "q1w2e3r"
        { date := "2024-01-01", amount := "100", ethPrice := "50",
          type := EntryType.deposit }).state =
        { date := "2024-01-01", amount := "", ethPrice := "50",
          type := EntryType.deposit } ∧
      (handleSubmit none "q1w2e3r"
        { date := "2024-01-01", amount := "100", ethPrice := "50",
          type := EntryType.deposit }).refetch = true) ∧
    ∀ e : Investment,
      (handleSubmit (some e) "q1w2e3r"
        { date := "2024-01-01", amount := "100", ethPrice := "50",
          type := EntryType.deposit }).state =
        { date := "2024-01-01", amount := "100", ethPrice := "50",
          type := EntryType.deposit } ∧
      (handleSubmit (some e) "q1w2e3r"
        { date := "2024-01-01", amount := "100", ethPrice := "50",
          type := EntryType.deposit }).refetch = false :=
  C9_post_submit "q1w2e3r" _ 100 50 (by decide)
    (by simp +decide [parseFloat, digitsToNat, digitVal]) (by norm_num)
    (by simp +decide [parseFloat, digitsToNat, digitVal]) (by norm_num)

/-- C10: a non-empty amount or ethPrice consisting only of whitespace
passes the required-fields check but fails numeric parsing, so the
toast shown is "Please enter valid numeric values" (not "Please
complete all fields") and `onAddInvestment` is not invoked. -/
theorem C10_whitespace_fields (editing : Option Investment) (freshId : String)
    (s : FormState) (hd : s.date ≠ "") (ha : s.amount ≠ "") (hp : s.ethPrice ≠ "")
    (h : s.amount.data.all isJsWhitespace = true ∨ s.ethPrice.data.all isJsWhitespace = true) :
    handleSubmit editing freshId s =
      { toast := .error "Please enter valid numeric values", callback := none, state := s,
        refetch := false } :=
  handleSubmit_nonnumeric editing freshId s hd ha hp
    (h.imp parseFloat_of_whitespace parseFloat_of_whitespace)

/-- C10 witness: a submit whose amount field is a single space. -/
theorem C10_witness :
    handleSubmit none "q1w2e3r"
        { date := "2024-01-01", amount := " ", ethPrice := "50", type := EntryType.deposit } =
      { toast := .error "Please enter valid numeric values", callback := none,
        state := { date := "2024-01-01", amount := " ", ethPrice := "50",
                   type := EntryType.deposit },
        refetch := false } :=
  C10_whitespace_fields none "q1w2e3r" _ (by decide) (by decide) (by decide)
    (Or.inl (by decide))
